import Mathlib

/-!
Verification development for the voice-chat session relay core
(`webrtc.gateway.ts`, second gateway revision, together with the
`WebRTCService` revisions that carry the realtime-session methods).

The TypeScript runtime state is embedded shallowly:
- JS `Map`s become association lists over `String` keys;
- the per-session mutable record becomes the structure `RTSession`
  (service side, per the `RealtimeSession` interface of the service
  revision) and `GwRealtimeSession` (gateway side);
- `Date` timestamps become `Nat` milliseconds; JS `a - b` on dates
  compared with a positive threshold agrees with truncated `Nat`
  subtraction, since a negative difference and `0` fall on the same
  side of every positive threshold used by the code;
- the upstream WebSocket is a connection identifier; the set of
  sockets whose underlying connection is open is the `openConns`
  component of `ServiceState`;
- frames written to the upstream socket are `WireEvent`s; handlers
  return the list of frames they emitted.
-/

namespace VoiceRelay

/-- Association-list lookup, mirroring `Map.get`. -/
def alistLookup {α : Type} (l : List (String × α)) (k : String) : Option α :=
  match l with
  | [] => none
  | (k', v') :: t => if k' = k then some v' else alistLookup t k

/-- Association-list insert/replace, mirroring `Map.set`. -/
def alistInsert {α : Type} (l : List (String × α)) (k : String) (v : α) :
    List (String × α) :=
  match l with
  | [] => [(k, v)]
  | (k', v') :: t => if k' = k then (k, v) :: t else (k', v') :: alistInsert t k v

/-- Association-list removal, mirroring `Map.delete` (keys are unique in a JS map,
so filtering every binding of the key is the same operation). -/
def alistRemove {α : Type} (l : List (String × α)) (k : String) :
    List (String × α) :=
  l.filter (fun p => p.1 ≠ k)

/-- Session lifecycle states, per the `RealtimeSession` interface
(`state: 'created' | 'connecting' | 'connected' | 'disconnected'`). -/
inductive SessionState
  | created
  | connecting
  | connected
  | disconnected
deriving DecidableEq

/-- `turn_detection` value (`{ type?: string }`). -/
structure TurnDetection where
  type : String
deriving DecidableEq

/-- The session `config` bag after creation.  `voice` is `Option` because the
`...config` spread in `createRealtimeSession` can leave it `undefined`. -/
structure SessionConfig where
  voice : Option String
  modalities : List String
  inputFormat : String
  outputFormat : String
  turn_detection : Option TurnDetection
deriving DecidableEq

/-- Service-side `RealtimeSession` record.  `modelConnection` holds the id of
the upstream WebSocket object when one is attached; whether that socket's
underlying connection is open is tracked in `ServiceState.openConns`. -/
structure RTSession where
  id : String
  sessionId : String
  clientId : String
  clientSocketIds : List String
  state : SessionState
  modelConnection : Option Nat
  config : SessionConfig
  active : Bool
  createdAt : Nat
  lastActivity : Nat
  latestMediaTimestamp : Option Nat
  currentResponseId : Option String
  connectingInProgress : Bool
deriving DecidableEq

/-- The `config` argument of `createRealtimeSession`.  Outer `Option` on a
field models whether the key is present in the JS object; for `voice` and
`turn_detection` the inner `Option` distinguishes `undefined`/`null` from a
proper value, because the trailing `...config` spread copies present keys
verbatim, overriding the defaults computed before it. -/
structure CreateConfig where
  voice : Option (Option String)
  modalities : Option (List String)
  disableVad : Option Bool
  turn_detection : Option (Option TurnDetection)
deriving DecidableEq

/-- `WebRTCService` mutable state: the legacy WebRTC session-id set
`activeSessions`, the realtime session map `realtimeSessions`, plus the pool
of currently open upstream sockets and a fresh-id counter for new sockets. -/
structure ServiceState where
  activeSessions : List String
  realtimeSessions : List (String × RTSession)
  openConns : List Nat
  nextConn : Nat
deriving DecidableEq

/-- Frames written to the upstream (provider-bound) WebSocket. -/
inductive WireEvent
  | sessionUpdate (instructions : String) (voice : Option String)
      (modalities : List String) (turnDetection : Option TurnDetection)
  | inputAudioBufferAppend (audio : String)
  | inputAudioBufferCommit
  | responseCreate
  | inputAudioBufferClear
deriving DecidableEq

/-- Standard base64 alphabet, as used by `Buffer.toString('base64')`. -/
def base64Chars : List Char :=
  "ABCDEFGHIJKLMNOPQRSTUVWXYZabcdefghijklmnopqrstuvwxyz0123456789+/".toList

def base64Char (n : Nat) : Char := base64Chars.getD n '='

/-- Encode a byte list three bytes at a time, padding with `=`. -/
def base64EncodeChunks : List Nat → List Char
  | [] => []
  | [b1] =>
      let n := (b1 % 256) * 65536
      [base64Char (n / 262144 % 64), base64Char (n / 4096 % 64), '=', '=']
  | [b1, b2] =>
      let n := (b1 % 256) * 65536 + (b2 % 256) * 256
      [base64Char (n / 262144 % 64), base64Char (n / 4096 % 64),
        base64Char (n / 64 % 64), '=']
  | b1 :: b2 :: b3 :: rest =>
      let n := (b1 % 256) * 65536 + (b2 % 256) * 256 + (b3 % 256)
      base64Char (n / 262144 % 64) :: base64Char (n / 4096 % 64) ::
        base64Char (n / 64 % 64) :: base64Char (n % 64) :: base64EncodeChunks rest

/-- `Buffer.from(audioBuffer).toString('base64')`. -/
def base64Encode (bytes : List Nat) : String := String.mk (base64EncodeChunks bytes)

/-- Reply of `WebRTCService.healthCheck` on its success path:
`{ status: 'healthy', activeSessions: this.activeSessions.size,
   realtimeSessions: this.realtimeSessions.size }`. -/
structure HealthCheckStatus where
  status : String
  activeSessions : Nat
  realtimeSessions : Nat
deriving DecidableEq

/-- `WebRTCService.healthCheck` (service revision carrying realtime sessions).
`activeSessions` counts the legacy WebRTC session-id set, `realtimeSessions`
counts the realtime session map. -/
def healthCheck (st : ServiceState) : HealthCheckStatus :=
  { status := "healthy"
    activeSessions := st.activeSessions.length
    realtimeSessions := st.realtimeSessions.length }

/-- `WebRTCService.createRealtimeSession`.  The config literal computes
defaults (`voice: config.voice || 'alloy'`, `modalities: config.modalities ||
["text","audio"]`, `turn_detection: hasVad ? { type: "server_vad" } : null`)
and then applies the `...config` spread, which overrides any of those keys
that are present in the caller's config object. -/
def createRealtimeSession (st : ServiceState) (sessionId : String)
    (config : CreateConfig) (now : Nat) : ServiceState × RTSession :=
  let hasVad : Bool := config.disableVad ≠ some true
  let voice : Option String :=
    match config.voice with
    | some v => v
    | none => some "alloy"
  let modalities : List String :=
    match config.modalities with
    | some m => m
    | none => ["text", "audio"]
  let turnDetection : Option TurnDetection :=
    match config.turn_detection with
    | some td => td
    | none => if hasVad then some { type := "server_vad" } else none
  let session : RTSession :=
    { id := sessionId
      sessionId := sessionId
      clientId := sessionId
      clientSocketIds := []
      state := SessionState.created
      modelConnection := none
      config :=
        { voice := voice
          modalities := modalities
          inputFormat := "pcm16"
          outputFormat := "pcm16"
          turn_detection := turnDetection }
      active := true
      createdAt := now
      lastActivity := now
      latestMediaTimestamp := none
      currentResponseId := none
      connectingInProgress := false }
  ({ st with realtimeSessions := alistInsert st.realtimeSessions sessionId session },
    session)

/-- `WebRTCService.hasRealtimeSession`. -/
def hasRealtimeSession (st : ServiceState) (sessionId : String) : Bool :=
  (alistLookup st.realtimeSessions sessionId).isSome

/-- `WebRTCService.getRealtimeSession`. -/
def getRealtimeSession (st : ServiceState) (sessionId : String) : Option RTSession :=
  alistLookup st.realtimeSessions sessionId

/-- The hard connect-attempt timeout armed in `connectRealtimeSession`
(`setTimeout(..., 30000)`). -/
def connectionTimeoutMs : Nat := 30000

/-- Environment of one connect attempt: the first event the upstream socket
fires, with its time in ms after the attempt started (`silent` = the socket
never fires any event on its own). -/
inductive WsFirstEvent
  | opened (t : Nat)
  | errored (t : Nat)
  | closed (t : Nat)
  | silent
deriving DecidableEq

/-- Whether the connect promise resolves `true`: only when `open` fires
before the 30s timeout force-closes the socket. -/
def resolvesTrue : WsFirstEvent → Bool
  | WsFirstEvent.opened t => decide (t ≤ connectionTimeoutMs)
  | _ => false

/-- Time at which the connect promise resolves: at the socket's first event
if that beats the timeout, else at the timeout (whose `ws.close()` makes the
close handler fire and resolve `false`). -/
def resolveTime : WsFirstEvent → Nat
  | WsFirstEvent.opened t => min t connectionTimeoutMs
  | WsFirstEvent.errored t => min t connectionTimeoutMs
  | WsFirstEvent.closed t => min t connectionTimeoutMs
  | WsFirstEvent.silent => connectionTimeoutMs

/-- Whether the 30s timeout fires (no socket event beat it) and its handler
force-closes the still-pending socket. -/
def timedOut : WsFirstEvent → Bool
  | WsFirstEvent.opened t => decide (connectionTimeoutMs < t)
  | WsFirstEvent.errored t => decide (connectionTimeoutMs < t)
  | WsFirstEvent.closed t => decide (connectionTimeoutMs < t)
  | WsFirstEvent.silent => true

/-- The `error` handler resolves `false` but, unlike the `close` handler,
leaves `session.modelConnection` attached. -/
def errorKeepsConn : WsFirstEvent → Bool
  | WsFirstEvent.errored t => decide (t ≤ connectionTimeoutMs)
  | _ => false

/-- Fallback instructions sent when the caller supplies no initial prompt. -/
def defaultInstructions : String :=
  "You are a helpful AI assistant. Answer the user\x27s questions in a friendly and concise manner."

/-- The `session.update` configuration frame sent by the `open` handler. -/
def sessionUpdateFrame (initialPrompt : String) (cfg : SessionConfig) : WireEvent :=
  WireEvent.sessionUpdate
    (if initialPrompt = "" then defaultInstructions else initialPrompt)
    cfg.voice cfg.modalities cfg.turn_detection

/-- `WebRTCService.connectRealtimeSession`.  Returns the boolean the connect
promise resolves with, the service state after the resolving handler ran,
and the frames written upstream.  `apiKeyValid` abstracts the
`!this.apiKey || this.apiKey.length < 30` guard; `env` is the socket's
behavior for this attempt. -/
def connectRealtimeSession (st : ServiceState) (sessionId : String)
    (initialPrompt : String) (env : WsFirstEvent) (apiKeyValid : Bool) :
    Bool × ServiceState × List WireEvent :=
  match alistLookup st.realtimeSessions sessionId with
  | none => (false, st, [])
  | some s =>
    if s.state = SessionState.connected ∧ s.modelConnection.isSome then
      (true, st, [])
    else
      let s1 : RTSession := { s with state := SessionState.connecting }
      let cleared : RTSession × ServiceState :=
        match s1.modelConnection with
        | some c =>
            ({ s1 with modelConnection := none },
              { st with openConns := st.openConns.erase c })
        | none => (s1, st)
      let s2 := cleared.1
      let st1 := cleared.2
      if apiKeyValid then
        let c := st1.nextConn
        let s3 : RTSession := { s2 with modelConnection := some c }
        if resolvesTrue env then
          (true,
            { st1 with
              realtimeSessions := alistInsert st1.realtimeSessions sessionId
                { s3 with state := SessionState.connected }
              openConns := c :: st1.openConns
              nextConn := st1.nextConn + 1 },
            [sessionUpdateFrame initialPrompt s3.config])
        else if errorKeepsConn env then
          (false,
            { st1 with
              realtimeSessions := alistInsert st1.realtimeSessions sessionId
                { s3 with state := SessionState.disconnected }
              nextConn := st1.nextConn + 1 },
            [])
        else
          (false,
            { st1 with
              realtimeSessions := alistInsert st1.realtimeSessions sessionId
                { s3 with state := SessionState.disconnected, modelConnection := none }
              nextConn := st1.nextConn + 1 },
            [])
      else
        (false,
          { st1 with
            realtimeSessions := alistInsert st1.realtimeSessions sessionId
              { s2 with state := SessionState.disconnected } },
          [])

/-- `WebRTCService.sendAudioBuffer`.  `wireOk` abstracts whether the
`modelConnection.send` call throws; the activity timestamps are bumped
before the send is attempted, exactly as in the source. -/
def sendAudioBuffer (st : ServiceState) (sessionId : String)
    (audioBuffer : List Nat) (now : Nat) (wireOk : Bool) :
    Bool × ServiceState × List WireEvent :=
  match alistLookup st.realtimeSessions sessionId with
  | none => (false, st, [])
  | some s =>
    if s.state ≠ SessionState.connected ∨ s.modelConnection = none then
      (false, st, [])
    else
      let s1 : RTSession :=
        { s with lastActivity := now, latestMediaTimestamp := some now }
      let st1 : ServiceState :=
        { st with realtimeSessions := alistInsert st.realtimeSessions sessionId s1 }
      if wireOk then
        (true, st1, [WireEvent.inputAudioBufferAppend (base64Encode audioBuffer)])
      else
        (false, st1, [])

/-- `WebRTCService.sendRealtimeEvent`: fails fast on a missing or
non-connected session and mutates nothing in any case. -/
def sendRealtimeEvent (st : ServiceState) (sessionId : String)
    (event : WireEvent) (wireOk : Bool) :
    Bool × ServiceState × List WireEvent :=
  match alistLookup st.realtimeSessions sessionId with
  | none => (false, st, [])
  | some s =>
    if s.state ≠ SessionState.connected ∨ s.modelConnection = none then
      (false, st, [])
    else if wireOk then (true, st, [event])
    else (false, st, [])

/-- First mutation of `WebRTCService.closeRealtimeSession`: close the
upstream WebSocket if one is attached and clear `modelConnection`. -/
def closeStep1 (st : ServiceState) (sessionId : String) : ServiceState :=
  match alistLookup st.realtimeSessions sessionId with
  | none => st
  | some s =>
    match s.modelConnection with
    | some c =>
        { st with
          openConns := st.openConns.erase c
          realtimeSessions := alistInsert st.realtimeSessions sessionId
            { s with modelConnection := none } }
    | none => st

/-- Second mutation of `closeRealtimeSession`: `session.state = 'disconnected'`. -/
def closeStep2 (st : ServiceState) (sessionId : String) : ServiceState :=
  match alistLookup st.realtimeSessions sessionId with
  | none => st
  | some s =>
      { st with
        realtimeSessions := alistInsert st.realtimeSessions sessionId
          { s with state := SessionState.disconnected } }

/-- Final mutation of `closeRealtimeSession`: `realtimeSessions.delete(sessionId)`. -/
def closeStep3 (st : ServiceState) (sessionId : String) : ServiceState :=
  { st with realtimeSessions := alistRemove st.realtimeSessions sessionId }

/-- `WebRTCService.closeRealtimeSession`: close the socket, mark
disconnected, then remove the session from the registry. -/
def closeRealtimeSession (st : ServiceState) (sessionId : String) : ServiceState :=
  match alistLookup st.realtimeSessions sessionId with
  | none => st
  | some _ => closeStep3 (closeStep2 (closeStep1 st sessionId) sessionId) sessionId

/-- The sequence of states an interleaved observer can see while
`closeRealtimeSession` runs (before it starts and after each mutation). -/
def closeRealtimeSessionStates (st : ServiceState) (sessionId : String) :
    List ServiceState :=
  match alistLookup st.realtimeSessions sessionId with
  | none => [st]
  | some _ =>
      [st, closeStep1 st sessionId,
        closeStep2 (closeStep1 st sessionId) sessionId,
        closeStep3 (closeStep2 (closeStep1 st sessionId) sessionId) sessionId]

/-- `WebRTCService.closeWebRTCConnection` (legacy path): drop the id from
the `activeSessions` set; closing an absent id is a no-op. -/
def closeWebRTCConnection (st : ServiceState) (sessionId : String) : ServiceState :=
  { st with activeSessions := st.activeSessions.erase sessionId }

/-- `WebRTCService.cleanupSessions`: the service-side idle sweep.  It closes
every realtime session idle for more than 5 minutes, with no check of
`_connectingInProgress` and no grace period for young sessions.  (No
`setInterval` in the source ever schedules it; `sessionCleanupInterval` is
declared but never assigned.) -/
def cleanupSessions (st : ServiceState) (now : Nat) : ServiceState :=
  st.realtimeSessions.foldl
    (fun acc p =>
      if 5 * 60 * 1000 < now - p.2.lastActivity then
        closeRealtimeSession acc p.1
      else acc)
    st

/-- Events arriving from the upstream provider. -/
inductive RealtimeEvent
  | message (msg : String)
  | sessionCreated
  | sessionUpdated
  | responseCreated (responseId : String)
  | responseTextDelta (text : String)
  | responseAudioDelta (audio : String)
  | responseAudioTranscriptDelta (text : String)
  | responseAudioFinal
  | responseTextFinal
  | responseCompleted
  | speechStarted
  | speechStopped
  | bufferCommitted (durationMs : Nat)
  | errorEvent (message : String)
  | unknown (tag : String)
deriving DecidableEq

/-- `WebRTCService.handleRealtimeEvent` (the revision that tracks
`currentResponseId`): without a callback or a session it does nothing;
otherwise it bumps `lastActivity`, updates `currentResponseId` only on
`response.created` (set) and `response.completed` (clear), and forwards
every event — including `error` — to the client callback. -/
def handleRealtimeEvent (sessions : List (String × RTSession))
    (sessionId : String) (event : RealtimeEvent) (hasCallback : Bool)
    (now : Nat) : List (String × RTSession) × List RealtimeEvent :=
  if hasCallback then
    match alistLookup sessions sessionId with
    | none => (sessions, [])
    | some s =>
      let s1 : RTSession := { s with lastActivity := now }
      let s2 : RTSession :=
        match event with
        | RealtimeEvent.responseCreated rid =>
            { s1 with currentResponseId := some rid }
        | RealtimeEvent.responseCompleted =>
            { s1 with currentResponseId := none }
        | _ => s1
      (alistInsert sessions sessionId s2, [event])
  else (sessions, [])

/-- Gateway-side `RealtimeSession` record (the gateway keeps its own
`realtimeSessions` map keyed by session id, holding the owning client
socket and an activity timestamp). -/
structure GwRealtimeSession where
  clientSocketId : String
  state : SessionState
  lastActivity : Nat
deriving DecidableEq

/-- Gateway-side legacy `WebRTCSession` record. -/
structure GwWebRTCSession where
  id : String
  openaiSessionId : Option String
  clientSocketId : String
  created : Nat
  lastActivity : Nat
deriving DecidableEq

/-- `WebRTCGateway` mutable state. -/
structure GatewayState where
  sessions : List (String × GwWebRTCSession)
  realtimeSessions : List (String × GwRealtimeSession)
  clientSessions : List (String × String)
deriving DecidableEq

/-- The gateway's VAD test in `handleRealtimeAudio`:
`!serviceSession?.config?.turn_detection` — a missing session or an absent
(`null`/`undefined`) `turn_detection` both count as VAD-disabled. -/
def isVadDisabled (st : ServiceState) (sessionId : String) : Bool :=
  match alistLookup st.realtimeSessions sessionId with
  | none => true
  | some s => s.config.turn_detection.isNone

/-- `WebRTCGateway.cleanupSession` (legacy path): close the OpenAI WebRTC
connection if one was recorded, then delete the gateway session. -/
def cleanupSession (gst : GatewayState) (sst : ServiceState)
    (sessionId : String) : GatewayState × ServiceState :=
  match alistLookup gst.sessions sessionId with
  | none => (gst, sst)
  | some s =>
    let sst1 :=
      match s.openaiSessionId with
      | some oid => closeWebRTCConnection sst oid
      | none => sst
    ({ gst with sessions := alistRemove gst.sessions sessionId }, sst1)

/-- Grace period for newly created sessions in the gateway's realtime
cleanup (`sessionAge < 20000`). -/
def cleanupGraceMs : Nat := 20000

/-- `WebRTCGateway.cleanupRealtimeSession` (second gateway revision): looks
the session up in the service; returns untouched if it is absent, if
`_connectingInProgress` is set, or if the session is younger than 20s;
otherwise closes the upstream WebSocket, clears `modelConnection` and marks
the session `disconnected` — deliberately preserving it in the registry. -/
def cleanupRealtimeSession (sst : ServiceState) (sessionId : String)
    (now : Nat) : ServiceState :=
  match alistLookup sst.realtimeSessions sessionId with
  | none => sst
  | some s =>
    if s.connectingInProgress then sst
    else if now - s.createdAt < cleanupGraceMs then sst
    else
      match s.modelConnection with
      | some c =>
          { sst with
            openConns := sst.openConns.erase c
            realtimeSessions := alistInsert sst.realtimeSessions sessionId
              { s with
                modelConnection := none
                state := SessionState.disconnected } }
      | none =>
          { sst with
            realtimeSessions := alistInsert sst.realtimeSessions sessionId
              { s with state := SessionState.disconnected } }

/-- Idle threshold of the gateway sweep (`maxInactivityMs`, 10 minutes). -/
def maxInactivityMs : Nat := 10 * 60 * 1000

/-- `WebRTCGateway.cleanupInactiveSessions`: the scheduled idle reaper
(runs every 60s).  First sweeps the legacy sessions, then calls
`cleanupRealtimeSession` for every gateway realtime session idle beyond
10 minutes. -/
def cleanupInactiveSessions (gst : GatewayState) (sst : ServiceState)
    (now : Nat) : GatewayState × ServiceState :=
  let legacy :=
    gst.sessions.foldl
      (fun acc p =>
        if maxInactivityMs < now - p.2.lastActivity then
          cleanupSession acc.1 acc.2 p.1
        else acc)
      (gst, sst)
  let sst2 :=
    legacy.1.realtimeSessions.foldl
      (fun acc p =>
        if maxInactivityMs < now - p.2.lastActivity then
          cleanupRealtimeSession acc p.1 now
        else acc)
      legacy.2
  (legacy.1, sst2)

/-- Body of the `connect-realtime-session` message. -/
structure ConnectRequest where
  sessionId : Option String
  initialPrompt : Option String
  voice : Option String
deriving DecidableEq

/-- `data.sessionId || client.id` (an absent or empty id falls back to the
client socket id). -/
def resolveConnectSessionId (req : ConnectRequest) (clientId : String) : String :=
  match req.sessionId with
  | some s => if s = "" then clientId else s
  | none => clientId

/-- Reply emitted as `realtime-session-connected`. -/
inductive SessionConnectedReply
  | ok (sessionId : String)
  | err (message : String)
deriving DecidableEq

/-- `session['_connectingInProgress'] = true` before the connect attempt. -/
def markConnectingInProgress (st : ServiceState) (sessionId : String) :
    ServiceState :=
  match alistLookup st.realtimeSessions sessionId with
  | none => st
  | some s =>
      { st with
        realtimeSessions := alistInsert st.realtimeSessions sessionId
          { s with connectingInProgress := true } }

/-- `session['_connectingInProgress'] = false` once the connect promise has
resolved.  (The source mutates the session object captured before the
`await`; `connectRealtimeSession` never removes or replaces the map entry,
so updating the current entry is the same operation.) -/
def clearConnectingInProgress (st : ServiceState) (sessionId : String) :
    ServiceState :=
  match alistLookup st.realtimeSessions sessionId with
  | none => st
  | some s =>
      { st with
        realtimeSessions := alistInsert st.realtimeSessions sessionId
          { s with connectingInProgress := false } }

/-- The existing-session branch of `handleConnectRealtimeSession`: update
the stored voice when the request carries a different (truthy) one. -/
def updateSessionVoice (st : ServiceState) (sessionId : String)
    (voice : Option String) : ServiceState :=
  match alistLookup st.realtimeSessions sessionId, voice with
  | some s, some v =>
      if v ≠ "" ∧ s.config.voice ≠ some v then
        { st with
          realtimeSessions := alistInsert st.realtimeSessions sessionId
            { s with config := { s.config with voice := some v } } }
      else st
  | _, _ => st

/-- `WebRTCGateway.handleConnectRealtimeSession` (second revision): create
the session when absent (passing `{ voice: data.voice }`), set the
connecting guard, run the service connect, clear the guard once the promise
has resolved, and reply with success or failure. -/
def handleConnectRealtimeSession (sst : ServiceState) (clientId : String)
    (req : ConnectRequest) (env : WsFirstEvent) (apiKeyValid : Bool)
    (now : Nat) : SessionConnectedReply × ServiceState × List WireEvent :=
  let sessionId := resolveConnectSessionId req clientId
  let initialPrompt := req.initialPrompt.getD ""
  let sst1 :=
    if hasRealtimeSession sst sessionId then
      updateSessionVoice sst sessionId req.voice
    else
      (createRealtimeSession sst sessionId
        { voice := some req.voice
          modalities := none
          disableVad := none
          turn_detection := none } now).1
  let sst2 := markConnectingInProgress sst1 sessionId
  let r := connectRealtimeSession sst2 sessionId initialPrompt env apiKeyValid
  let sst3 := clearConnectingInProgress r.2.1 sessionId
  ((if r.1 then SessionConnectedReply.ok sessionId
    else SessionConnectedReply.err "Failed to connect to OpenAI"),
    sst3, r.2.2)

/-- Body of the `realtime-audio` message. -/
structure RealtimeAudioRequest where
  sessionId : String
  audio : List Nat
  isFinal : Bool
deriving DecidableEq

/-- Reply of `handleRealtimeAudio`. -/
inductive RealtimeAudioReply
  | ok (success : Bool)
  | err (message : String)
deriving DecidableEq

/-- `WebRTCGateway.handleRealtimeAudio` (second revision): look the session
up in the gateway map, bump its activity, forward the chunk via
`sendAudioBuffer`, and — only when the chunk is final, the forward
succeeded, and the service session's `turn_detection` is absent — send
`input_audio_buffer.commit` followed by `response.create`. -/
def handleRealtimeAudio (gst : GatewayState) (sst : ServiceState)
    (req : RealtimeAudioRequest) (now : Nat) (w1 w2 w3 : Bool) :
    RealtimeAudioReply × GatewayState × ServiceState × List WireEvent :=
  match alistLookup gst.realtimeSessions req.sessionId with
  | none => (RealtimeAudioReply.err "Session not found", gst, sst, [])
  | some g =>
    let gst1 : GatewayState :=
      { gst with
        realtimeSessions := alistInsert gst.realtimeSessions req.sessionId
          { g with lastActivity := now } }
    let r1 := sendAudioBuffer sst req.sessionId req.audio now w1
    if req.isFinal && r1.1 then
      if isVadDisabled r1.2.1 req.sessionId then
        let r2 := sendRealtimeEvent r1.2.1 req.sessionId
          WireEvent.inputAudioBufferCommit w2
        let r3 := sendRealtimeEvent r2.2.1 req.sessionId
          WireEvent.responseCreate w3
        (RealtimeAudioReply.ok r1.1, gst1, r3.2.1,
          r1.2.2 ++ r2.2.2 ++ r3.2.2)
      else (RealtimeAudioReply.ok r1.1, gst1, r1.2.1, r1.2.2)
    else (RealtimeAudioReply.ok r1.1, gst1, r1.2.1, r1.2.2)

/-- Reply of `handleRealtimeSessionEnd`: either `{success: true, message?}`
or `{error: message}` (from the catch block). -/
inductive EndSessionReply
  | ok (message : Option String)
  | err (message : String)
deriving DecidableEq

/-- `WebRTCGateway.handleRealtimeSessionEnd` (second revision): reject a
missing id; report success when the session is unknown; reject a caller
that is not the owning client socket with an Unauthorized error (thrown,
then returned by the catch block); otherwise clean up and report success. -/
def handleRealtimeSessionEnd (gst : GatewayState) (sst : ServiceState)
    (clientId : String) (sessionId : String) (now : Nat) :
    EndSessionReply × GatewayState × ServiceState :=
  if sessionId = "" then
    (EndSessionReply.err "Session ID is required", gst, sst)
  else
    match alistLookup gst.realtimeSessions sessionId with
    | none =>
        (EndSessionReply.ok (some "Session was already closed or did not exist"),
          gst, sst)
    | some g =>
      if g.clientSocketId = clientId then
        (EndSessionReply.ok none, gst, cleanupRealtimeSession sst sessionId now)
      else
        (EndSessionReply.err
          ("Unauthorized: Client " ++ clientId ++ " does not own session " ++ sessionId),
          gst, sst)

/-- Reply of the gateway `health-check` handler: `{ status: 'healthy',
timestamp, ...status }` where `status` is `healthCheck()`'s reply (whose own
`status` key overwrites the literal one in the spread). -/
structure GatewayHealthReply where
  status : String
  timestamp : Nat
  activeSessions : Nat
  realtimeSessions : Nat
deriving DecidableEq

/-- `WebRTCGateway.handleHealthCheck` (second revision). -/
def handleHealthCheck (sst : ServiceState) (now : Nat) : GatewayHealthReply :=
  let h := healthCheck sst
  { status := h.status
    timestamp := now
    activeSessions := h.activeSessions
    realtimeSessions := h.realtimeSessions }

/-! Concrete fixtures used by witnesses and counterexamples. -/

/-- A default session config, as produced by `createRealtimeSession` with an
empty config object. -/
def sampleConfig : SessionConfig :=
  { voice := some "alloy"
    modalities := ["text", "audio"]
    inputFormat := "pcm16"
    outputFormat := "pcm16"
    turn_detection := some { type := "server_vad" } }

/-- A connected session holding upstream socket `0`. -/
def sampleSession : RTSession :=
  { id := "s1"
    sessionId := "s1"
    clientId := "s1"
    clientSocketIds := ["c1"]
    state := SessionState.connected
    modelConnection := some 0
    config := sampleConfig
    active := true
    createdAt := 0
    lastActivity := 0
    latestMediaTimestamp := none
    currentResponseId := none
    connectingInProgress := false }

/-- A connected session with manual turn detection (`turn_detection: null`). -/
def manualSession : RTSession :=
  { sampleSession with config := { sampleConfig with turn_detection := none } }

/-- A service state with no sessions. -/
def emptyServiceState : ServiceState :=
  { activeSessions := []
    realtimeSessions := []
    openConns := []
    nextConn := 0 }

/-- A gateway realtime session owned by client socket `c1`. -/
def gwSessionC1 : GwRealtimeSession :=
  { clientSocketId := "c1", state := SessionState.connected, lastActivity := 0 }

/-- A gateway state holding only `s1`, owned by `c1`. -/
def gwStateS1 : GatewayState :=
  { sessions := [], realtimeSessions := [("s1", gwSessionC1)], clientSessions := [] }

/-- A service state holding the connected session `s1` with socket `0` open. -/
def svcStateS1 : ServiceState :=
  { activeSessions := []
    realtimeSessions := [("s1", sampleSession)]
    openConns := [0]
    nextConn := 1 }

/-- Like `svcStateS1` but with manual turn detection on `s1`. -/
def svcStateManual : ServiceState :=
  { svcStateS1 with realtimeSessions := [("s1", manualSession)] }

/-- `s1` mid-connect: `_connectingInProgress` set, freshly created relative
to sweep time `400000`, but long idle. -/
def reapVictim : RTSession :=
  { sampleSession with
    connectingInProgress := true
    createdAt := 400000
    lastActivity := 0 }

/-- Service state holding only `reapVictim`. -/
def reapState : ServiceState :=
  { activeSessions := []
    realtimeSessions := [("s1", reapVictim)]
    openConns := [0]
    nextConn := 1 }

/-- `svcStateS1` with the connecting guard set on `s1`. -/
def guardedState : ServiceState :=
  { svcStateS1 with
    realtimeSessions := [("s1", { sampleSession with connectingInProgress := true })] }

/-- A session mid-stream: a response is currently being streamed. -/
def streamingSession : RTSession :=
  { sampleSession with currentResponseId := some "resp-1" }

/-- A disconnected session with no upstream socket. -/
def disconnectedSession : RTSession :=
  { sampleSession with state := SessionState.disconnected, modelConnection := none }

/-- Service state holding only the disconnected `s1`. -/
def svcStateDisconnected : ServiceState :=
  { activeSessions := []
    realtimeSessions := [("s1", disconnectedSession)]
    openConns := []
    nextConn := 1 }

/-- Service state with two live realtime sessions and no legacy sessions. -/
def twoSessionState : ServiceState :=
  { activeSessions := []
    realtimeSessions := [("a", sampleSession), ("b", sampleSession)]
    openConns := [0]
    nextConn := 1 }

/-- Service state holding `streamingSession` under `s1`. -/
def streamingState : List (String × RTSession) := [("s1", streamingSession)]

/-- A `connect-realtime-session` request naming session `s1`. -/
def connectReqS1 : ConnectRequest :=
  { sessionId := some "s1", initialPrompt := none, voice := none }

/-- A final audio chunk for `s1`. -/
def audioReqFinal : RealtimeAudioRequest :=
  { sessionId := "s1", audio := [1, 2, 3], isFinal := true }

/-- A non-final audio chunk for `s1`. -/
def audioReqNonFinal : RealtimeAudioRequest :=
  { sessionId := "s1", audio := [1, 2, 3], isFinal := false }

/-- A creation config with no `turn_detection` key and no `disableVad`. -/
def cfgDefault : CreateConfig :=
  { voice := none, modalities := none, disableVad := none, turn_detection := none }

/-- A creation config asking for manual turn detection. -/
def cfgDisableVad : CreateConfig :=
  { voice := none, modalities := none, disableVad := some true, turn_detection := none }

/-- A creation config without `disableVad` but with an explicit
`turn_detection: null` key. -/
def cfgNullTurnDetection : CreateConfig :=
  { voice := none, modalities := none, disableVad := none, turn_detection := some none }

/-! General lemmas about the association-list model of JS `Map`. -/

theorem alistLookup_insert_self {α : Type} (l : List (String × α)) (k : String) (v : α) :
    alistLookup (alistInsert l k v) k = some v := by
  induction l with
  | nil => simp [alistInsert, alistLookup]
  | cons hd tl ih =>
    by_cases h : hd.1 = k
    · simp [alistInsert, alistLookup, h]
    · simp [alistInsert, alistLookup, h, ih]

theorem alistLookup_insert_ne {α : Type} (l : List (String × α)) (k k' : String) (v : α)
    (h : k' ≠ k) : alistLookup (alistInsert l k v) k' = alistLookup l k' := by
  induction l with
  | nil => simp [alistInsert, alistLookup, Ne.symm h]
  | cons hd tl ih =>
    by_cases hh : hd.1 = k
    · simp [alistInsert, alistLookup, hh, Ne.symm h]
    · by_cases hk' : hd.1 = k'
      · simp [alistInsert, alistLookup, hh, hk', h]
      · simp [alistInsert, alistLookup, hh, hk', ih]

theorem alistLookup_remove_self {α : Type} (l : List (String × α)) (k : String) :
    alistLookup (alistRemove l k) k = none := by
  induction l with
  | nil => simp [alistRemove, alistLookup]
  | cons hd tl ih =>
    by_cases h : hd.1 = k
    · simpa [alistRemove, alistLookup, h] using ih
    · simpa [alistRemove, alistLookup, h] using ih

/-! Helper lemmas about the embedded operations. -/

theorem clearConnectingInProgress_lookup (st : ServiceState) (sid : String)
    (s' : RTSession)
    (h : alistLookup (clearConnectingInProgress st sid).realtimeSessions sid = some s') :
    s'.connectingInProgress = false := by
  unfold clearConnectingInProgress at h
  cases hl : alistLookup st.realtimeSessions sid with
  | none => rw [hl] at h; simp at h; rw [hl] at h; exact absurd h (by simp)
  | some s0 =>
    rw [hl] at h
    simp [alistLookup_insert_self] at h
    rw [← h]

theorem cleanupRealtimeSession_skips (acc : ServiceState) (sid : String)
    (s : RTSession) (now : Nat)
    (h1 : alistLookup acc.realtimeSessions sid = some s)
    (hg : s.connectingInProgress = true ∨ now - s.createdAt < cleanupGraceMs) :
    cleanupRealtimeSession acc sid now = acc := by
  unfold cleanupRealtimeSession
  rw [h1]
  by_cases hb : s.connectingInProgress
  · simp [hb]
  · rcases hg with hg | hg
    · exact absurd hg (by simpa using hb)
    · simp [hb, hg]

theorem cleanupRealtimeSession_lookup_other (acc : ServiceState) (k sid : String)
    (now : Nat) (hne : sid ≠ k) :
    alistLookup (cleanupRealtimeSession acc k now).realtimeSessions sid =
      alistLookup acc.realtimeSessions sid := by
  unfold cleanupRealtimeSession
  cases h : alistLookup acc.realtimeSessions k with
  | none => rfl
  | some t =>
    by_cases hb : t.connectingInProgress
    · simp [hb]
    · by_cases hy : now - t.createdAt < cleanupGraceMs
      · simp [hb, hy]
      · cases hmc : t.modelConnection with
        | some c => simp [hb, hy, hmc, alistLookup_insert_ne _ _ _ _ hne]
        | none => simp [hb, hy, hmc, alistLookup_insert_ne _ _ _ _ hne]

theorem cleanupRealtimeSession_lookup_self_modified (acc : ServiceState)
    (k : String) (now : Nat) (t : RTSession)
    (hl : alistLookup acc.realtimeSessions k = some t)
    (hb : t.connectingInProgress = false)
    (hy : ¬ now - t.createdAt < cleanupGraceMs) :
    alistLookup (cleanupRealtimeSession acc k now).realtimeSessions k =
      some { t with state := SessionState.disconnected, modelConnection := none } := by
  unfold cleanupRealtimeSession
  rw [hl]
  cases hmc : t.modelConnection with
  | some c => simp [hb, hy, hmc, alistLookup_insert_self]
  | none => simp [hb, hy, hmc, alistLookup_insert_self]

theorem cleanupRealtimeSession_absent (acc : ServiceState) (k : String)
    (now : Nat) (hl : alistLookup acc.realtimeSessions k = none) :
    cleanupRealtimeSession acc k now = acc := by
  unfold cleanupRealtimeSession
  rw [hl]

theorem cleanupRealtimeSession_entries (acc : ServiceState) (k : String)
    (now : Nat) (k2 : String) (t2 : RTSession)
    (h : alistLookup (cleanupRealtimeSession acc k now).realtimeSessions k2 = some t2) :
    alistLookup acc.realtimeSessions k2 = some t2 ∨ t2.modelConnection = none := by
  by_cases hk : k2 = k
  · subst hk
    cases hl : alistLookup acc.realtimeSessions k2 with
    | none =>
      rw [cleanupRealtimeSession_absent acc k2 now hl] at h
      rw [hl] at h
      exact absurd h (by simp)
    | some t =>
      by_cases hb : t.connectingInProgress
      · rw [cleanupRealtimeSession_skips acc k2 t now hl (Or.inl hb)] at h
        rw [hl] at h
        exact Or.inl h
      · by_cases hy : now - t.createdAt < cleanupGraceMs
        · rw [cleanupRealtimeSession_skips acc k2 t now hl (Or.inr hy)] at h
          rw [hl] at h
          exact Or.inl h
        · rw [cleanupRealtimeSession_lookup_self_modified acc k2 now t hl
            (by simpa using hb) hy] at h
          refine Or.inr ?_
          rw [← Option.some_inj.mp h]
  · rw [cleanupRealtimeSession_lookup_other acc k k2 now hk] at h
    exact Or.inl h

theorem cleanupRealtimeSession_openConns_mem (acc : ServiceState) (k : String)
    (now : Nat) (c : Nat) (hc : c ∈ acc.openConns)
    (hO : ∀ t, alistLookup acc.realtimeSessions k = some t →
      t.modelConnection ≠ some c) :
    c ∈ (cleanupRealtimeSession acc k now).openConns := by
  unfold cleanupRealtimeSession
  cases h : alistLookup acc.realtimeSessions k with
  | none => exact hc
  | some t =>
    by_cases hb : t.connectingInProgress
    · simpa [hb] using hc
    · by_cases hy : now - t.createdAt < cleanupGraceMs
      · simpa [hb, hy] using hc
      · cases hmc : t.modelConnection with
        | some c' =>
          have hcc : c ≠ c' := by
            intro hEq
            exact hO t h (by rw [hmc, hEq])
          simpa [hb, hy, hmc] using (List.mem_erase_of_ne hcc).mpr hc
        | none => simpa [hb, hy, hmc] using hc

theorem cleanupRealtimeSession_preserves_presence (acc : ServiceState)
    (sid : String) (now : Nat)
    (h : (alistLookup acc.realtimeSessions sid).isSome = true) :
    (alistLookup (cleanupRealtimeSession acc sid now).realtimeSessions sid).isSome = true := by
  unfold cleanupRealtimeSession
  cases hl : alistLookup acc.realtimeSessions sid with
  | none => rw [hl] at h; simp at h
  | some t =>
    by_cases hb : t.connectingInProgress
    · simp [hb, hl]
    · by_cases hy : now - t.createdAt < cleanupGraceMs
      · simp [hb, hy, hl]
      · cases hmc : t.modelConnection with
        | some c => simp [hb, hy, hmc, alistLookup_insert_self]
        | none => simp [hb, hy, hmc, alistLookup_insert_self]

theorem sendAudioBuffer_success (st : ServiceState) (sid : String)
    (buf : List Nat) (now : Nat) (s : RTSession) (c : Nat)
    (hs : alistLookup st.realtimeSessions sid = some s)
    (hst : s.state = SessionState.connected)
    (hmc : s.modelConnection = some c) :
    sendAudioBuffer st sid buf now true =
      (true,
        { st with
          realtimeSessions := alistInsert st.realtimeSessions sid
            { s with lastActivity := now, latestMediaTimestamp := some now } },
        [WireEvent.inputAudioBufferAppend (base64Encode buf)]) := by
  unfold sendAudioBuffer
  rw [hs]
  simp [hst, hmc]

theorem sendRealtimeEvent_success (st : ServiceState) (sid : String)
    (ev : WireEvent) (s : RTSession) (c : Nat)
    (hs : alistLookup st.realtimeSessions sid = some s)
    (hst : s.state = SessionState.connected)
    (hmc : s.modelConnection = some c) :
    sendRealtimeEvent st sid ev true = (true, st, [ev]) := by
  unfold sendRealtimeEvent
  rw [hs]
  simp [hst, hmc]

theorem sendAudioBuffer_no_manual_events (st : ServiceState) (sid : String)
    (buf : List Nat) (now : Nat) (w : Bool) :
    WireEvent.inputAudioBufferCommit ∉ (sendAudioBuffer st sid buf now w).2.2 ∧
    WireEvent.responseCreate ∉ (sendAudioBuffer st sid buf now w).2.2 := by
  unfold sendAudioBuffer
  cases alistLookup st.realtimeSessions sid with
  | none => simp
  | some s =>
    by_cases hcond : s.state ≠ SessionState.connected ∨ s.modelConnection = none
    · simp [hcond]
    · cases w <;> simp [hcond]

theorem timedOut_resolvesTrue_false (env : WsFirstEvent)
    (hT : timedOut env = true) : resolvesTrue env = false := by
  cases env with
  | opened t =>
    simp [timedOut] at hT
    simp [resolvesTrue]
    omega
  | errored t => rfl
  | closed t => rfl
  | silent => rfl

theorem timedOut_errorKeepsConn_false (env : WsFirstEvent)
    (hT : timedOut env = true) : errorKeepsConn env = false := by
  cases env with
  | opened t => rfl
  | errored t =>
    simp [timedOut] at hT
    simp [errorKeepsConn]
    omega
  | closed t => rfl
  | silent => rfl

theorem cleanupSession_preserves_service_realtime (gst : GatewayState)
    (sst : ServiceState) (sid : String) :
    (cleanupSession gst sst sid).2.realtimeSessions = sst.realtimeSessions ∧
    (cleanupSession gst sst sid).2.openConns = sst.openConns := by
  cases h : alistLookup gst.sessions sid with
  | none => simp [cleanupSession, h]
  | some s =>
    cases ho : s.openaiSessionId <;>
      simp [cleanupSession, closeWebRTCConnection, h, ho]

theorem legacy_sweep_preserves (l : List (String × GwWebRTCSession))
    (now : Nat) (gp : GatewayState × ServiceState) :
    ((l.foldl
      (fun acc p =>
        if maxInactivityMs < now - p.2.lastActivity then
          cleanupSession acc.1 acc.2 p.1
        else acc)
      gp).2.realtimeSessions = gp.2.realtimeSessions ∧
     (l.foldl
      (fun acc p =>
        if maxInactivityMs < now - p.2.lastActivity then
          cleanupSession acc.1 acc.2 p.1
        else acc)
      gp).2.openConns = gp.2.openConns) := by
  induction l generalizing gp with
  | nil => exact ⟨rfl, rfl⟩
  | cons hd tl ih =>
    simp only [List.foldl_cons]
    by_cases hc : maxInactivityMs < now - hd.2.lastActivity
    · rw [if_pos hc]
      have h1 := cleanupSession_preserves_service_realtime gp.1 gp.2 hd.1
      have h2 := ih (cleanupSession gp.1 gp.2 hd.1)
      exact ⟨h2.1.trans h1.1, h2.2.trans h1.2⟩
    · rw [if_neg hc]
      exact ih gp

theorem realtime_sweep_preserves_entry (l : List (String × GwRealtimeSession))
    (now : Nat) (sid : String) (s : RTSession)
    (hg : s.connectingInProgress = true ∨ now - s.createdAt < cleanupGraceMs)
    (acc : ServiceState)
    (h1 : alistLookup acc.realtimeSessions sid = some s) :
    alistLookup
      ((l.foldl
        (fun a p =>
          if maxInactivityMs < now - p.2.lastActivity then
            cleanupRealtimeSession a p.1 now
          else a)
        acc)).realtimeSessions sid = some s := by
  induction l generalizing acc with
  | nil => exact h1
  | cons hd tl ih =>
    simp only [List.foldl_cons]
    by_cases hc : maxInactivityMs < now - hd.2.lastActivity
    · rw [if_pos hc]
      refine ih (cleanupRealtimeSession acc hd.1 now) ?_
      by_cases hk : sid = hd.1
      · rw [← hk, cleanupRealtimeSession_skips acc sid s now h1 hg]
        exact h1
      · rw [cleanupRealtimeSession_lookup_other acc hd.1 sid now hk]
        exact h1
    · rw [if_neg hc]
      exact ih acc h1

theorem realtime_sweep_preserves_conn (l : List (String × GwRealtimeSession))
    (now : Nat) (sid : String) (s : RTSession) (c : Nat)
    (hg : s.connectingInProgress = true ∨ now - s.createdAt < cleanupGraceMs)
    (acc : ServiceState)
    (h1 : alistLookup acc.realtimeSessions sid = some s)
    (h2 : c ∈ acc.openConns)
    (h3 : ∀ k t, k ≠ sid → alistLookup acc.realtimeSessions k = some t →
      t.modelConnection ≠ some c) :
    c ∈ ((l.foldl
      (fun a p =>
        if maxInactivityMs < now - p.2.lastActivity then
          cleanupRealtimeSession a p.1 now
        else a)
      acc)).openConns := by
  induction l generalizing acc with
  | nil => exact h2
  | cons hd tl ih =>
    simp only [List.foldl_cons]
    by_cases hc : maxInactivityMs < now - hd.2.lastActivity
    · rw [if_pos hc]
      by_cases hk : hd.1 = sid
      · rw [hk, cleanupRealtimeSession_skips acc sid s now h1 hg]
        exact ih acc h1 h2 h3
      · refine ih (cleanupRealtimeSession acc hd.1 now) ?_ ?_ ?_
        · rw [cleanupRealtimeSession_lookup_other acc hd.1 sid now
            (fun hEq => hk hEq.symm)]
          exact h1
        · exact cleanupRealtimeSession_openConns_mem acc hd.1 now c h2
            (fun t ht => h3 hd.1 t hk ht)
        · intro k2 t2 hk2 hl2
          rcases cleanupRealtimeSession_entries acc hd.1 now k2 t2 hl2 with h | h
          · exact h3 k2 t2 hk2 h
          · rw [h]
            simp
    · rw [if_neg hc]
      exact ih acc h1 h2 h3

theorem sendAudioBuffer_preserves_vad (sst : ServiceState) (sid : String)
    (buf : List Nat) (now : Nat) (w1 : Bool) (s : RTSession)
    (hs : alistLookup sst.realtimeSessions sid = some s)
    (htd : s.config.turn_detection.isSome = true) :
    isVadDisabled (sendAudioBuffer sst sid buf now w1).2.1 sid = false := by
  cases hto : s.config.turn_detection with
  | none => rw [hto] at htd; exact absurd htd (by simp)
  | some td =>
    unfold sendAudioBuffer isVadDisabled
    rw [hs]
    by_cases hcond : s.state ≠ SessionState.connected ∨ s.modelConnection = none
    · simp [hcond, hs, hto]
    · cases w1 <;> simp [hcond, alistLookup_insert_self, hto]

theorem handleRealtimeAudio_no_manual (gst : GatewayState) (sst : ServiceState)
    (req : RealtimeAudioRequest) (now : Nat) (w1 w2 w3 : Bool)
    (hcase : (req.isFinal && (sendAudioBuffer sst req.sessionId req.audio now w1).1) = false
      ∨ isVadDisabled (sendAudioBuffer sst req.sessionId req.audio now w1).2.1 req.sessionId = false) :
    WireEvent.inputAudioBufferCommit ∉ (handleRealtimeAudio gst sst req now w1 w2 w3).2.2.2 ∧
    WireEvent.responseCreate ∉ (handleRealtimeAudio gst sst req now w1 w2 w3).2.2.2 := by
  unfold handleRealtimeAudio
  cases hg : alistLookup gst.realtimeSessions req.sessionId with
  | none => simp
  | some g =>
    have hnm := sendAudioBuffer_no_manual_events sst req.sessionId req.audio now w1
    rcases hcase with hcase | hcase
    · simp [hcase, hnm.1, hnm.2]
    · by_cases hff : (req.isFinal && (sendAudioBuffer sst req.sessionId req.audio now w1).1) = true
      · simp [hff, hcase, hnm.1, hnm.2]
      · simp [eq_false_of_ne_true hff, hnm.1, hnm.2]

/-! Claim theorems. -/

/-- C4: for a session with turn detection disabled, a final audio chunk
that forwards successfully makes the gateway send exactly one
`input_audio_buffer.commit` followed by exactly one `response.create`
(after the audio append), in that order; a non-final chunk, a failed
forward, or a session with turn detection present yields neither event. -/
theorem handleRealtimeAudio_manual_commit (gst : GatewayState)
    (sst : ServiceState) (req : RealtimeAudioRequest) (now : Nat)
    (w1 w2 w3 : Bool) (g : GwRealtimeSession) (s : RTSession) (c : Nat)
    (hg : alistLookup gst.realtimeSessions req.sessionId = some g)
    (hs : alistLookup sst.realtimeSessions req.sessionId = some s) :
    (req.isFinal = true → s.state = SessionState.connected →
      s.modelConnection = some c → s.config.turn_detection = none →
      w1 = true → w2 = true → w3 = true →
      (handleRealtimeAudio gst sst req now w1 w2 w3).2.2.2 =
        [WireEvent.inputAudioBufferAppend (base64Encode req.audio),
          WireEvent.inputAudioBufferCommit, WireEvent.responseCreate]) ∧
    (req.isFinal = false →
      WireEvent.inputAudioBufferCommit ∉ (handleRealtimeAudio gst sst req now w1 w2 w3).2.2.2 ∧
      WireEvent.responseCreate ∉ (handleRealtimeAudio gst sst req now w1 w2 w3).2.2.2) ∧
    ((sendAudioBuffer sst req.sessionId req.audio now w1).1 = false →
      WireEvent.inputAudioBufferCommit ∉ (handleRealtimeAudio gst sst req now w1 w2 w3).2.2.2 ∧
      WireEvent.responseCreate ∉ (handleRealtimeAudio gst sst req now w1 w2 w3).2.2.2) ∧
    (s.config.turn_detection.isSome = true →
      WireEvent.inputAudioBufferCommit ∉ (handleRealtimeAudio gst sst req now w1 w2 w3).2.2.2 ∧
      WireEvent.responseCreate ∉ (handleRealtimeAudio gst sst req now w1 w2 w3).2.2.2) := by
  refine ⟨?_, ?_, ?_, ?_⟩
  · intro hfin hstc hmc htd hw1 hw2 hw3
    subst hw1
    subst hw2
    subst hw3
    have hsb := sendAudioBuffer_success sst req.sessionId req.audio now s c hs hstc hmc
    have hlook1 : alistLookup
        (alistInsert sst.realtimeSessions req.sessionId
          { s with lastActivity := now, latestMediaTimestamp := some now })
        req.sessionId =
        some { s with lastActivity := now, latestMediaTimestamp := some now } :=
      alistLookup_insert_self sst.realtimeSessions req.sessionId _
    unfold handleRealtimeAudio
    rw [hg, hsb]
    simp only [hfin, Bool.and_self, if_true]
    rw [show isVadDisabled
        { sst with
          realtimeSessions := alistInsert sst.realtimeSessions req.sessionId
            { s with lastActivity := now, latestMediaTimestamp := some now } }
        req.sessionId = true by simp [isVadDisabled, hlook1, htd]]
    rw [sendRealtimeEvent_success _ req.sessionId WireEvent.inputAudioBufferCommit
      { s with lastActivity := now, latestMediaTimestamp := some now } c hlook1 hstc hmc]
    rw [sendRealtimeEvent_success _ req.sessionId WireEvent.responseCreate
      { s with lastActivity := now, latestMediaTimestamp := some now } c hlook1 hstc hmc]
    simp
  · intro hfin
    exact handleRealtimeAudio_no_manual gst sst req now w1 w2 w3
      (Or.inl (by rw [hfin]; rfl))
  · intro hfail
    exact handleRealtimeAudio_no_manual gst sst req now w1 w2 w3
      (Or.inl (by rw [hfail]; simp))
  · intro htd
    exact handleRealtimeAudio_no_manual gst sst req now w1 w2 w3
      (Or.inr (sendAudioBuffer_preserves_vad sst req.sessionId req.audio now w1 s hs htd))

/-- C4 witness: the manual session with an open socket receives a final
chunk and the wire sees append, commit, response.create in order; the same
state with a non-final chunk produces no manual events. -/
theorem handleRealtimeAudio_manual_commit_witness :
    (handleRealtimeAudio gwStateS1 svcStateManual audioReqFinal 7 true true true).2.2.2 =
      [WireEvent.inputAudioBufferAppend (base64Encode [1, 2, 3]),
        WireEvent.inputAudioBufferCommit, WireEvent.responseCreate] ∧
    WireEvent.inputAudioBufferCommit ∉
      (handleRealtimeAudio gwStateS1 svcStateManual audioReqNonFinal 7 true true true).2.2.2 :=
  ⟨(handleRealtimeAudio_manual_commit gwStateS1 svcStateManual audioReqFinal 7
      true true true gwSessionC1 manualSession 0 (by decide) (by decide)).1
      (by decide) (by decide) (by decide) (by decide) rfl rfl rfl,
    ((handleRealtimeAudio_manual_commit gwStateS1 svcStateManual audioReqNonFinal 7
      true true true gwSessionC1 manualSession 0 (by decide) (by decide)).2.1
      (by decide)).1⟩

/-- C5 counterexample: the owner ends the eligible session `s1`; the reply
is `{success: true}`, yet afterwards `s1` is still reachable from the
service registry, merely marked disconnected with its socket handle
cleared — the explicit-end path never removes the session. -/
theorem end_session_preserves_registry_entry :
    (handleRealtimeSessionEnd gwStateS1 svcStateS1 "c1" "s1" 100000).1 =
      EndSessionReply.ok none ∧
    alistLookup
      (handleRealtimeSessionEnd gwStateS1 svcStateS1 "c1" "s1" 100000).2.2.realtimeSessions "s1" =
      some { sampleSession with
        modelConnection := none
        state := SessionState.disconnected } := by decide

/-- C5 (amended): `WebRTCService.closeRealtimeSession` does observe the
close-then-remove order: in every state an interleaved lookup can observe,
if the session is gone from the registry its socket is already closed, and
after the call the id is unreachable; the gateway's explicit-end/reap path
(`cleanupRealtimeSession`), however, preserves the session in the registry
instead of removing it. -/
theorem closeRealtimeSession_close_precedes_remove (st : ServiceState)
    (sid : String) (s : RTSession) (c : Nat)
    (hs : alistLookup st.realtimeSessions sid = some s)
    (hmc : s.modelConnection = some c)
    (hnd : st.openConns.Nodup) :
    (∀ st' ∈ closeRealtimeSessionStates st sid,
      alistLookup st'.realtimeSessions sid = none → c ∉ st'.openConns) ∧
    alistLookup (closeRealtimeSession st sid).realtimeSessions sid = none ∧
    (∀ sid2 now2, (alistLookup st.realtimeSessions sid2).isSome = true →
      (alistLookup (cleanupRealtimeSession st sid2 now2).realtimeSessions sid2).isSome = true) := by
  have hstep1 : closeStep1 st sid =
      { st with
        openConns := st.openConns.erase c
        realtimeSessions := alistInsert st.realtimeSessions sid
          { s with modelConnection := none } } := by
    simp [closeStep1, hs, hmc]
  have hlook1 : alistLookup (closeStep1 st sid).realtimeSessions sid =
      some { s with modelConnection := none } := by
    rw [hstep1]
    exact alistLookup_insert_self _ _ _
  have hstep2 : closeStep2 (closeStep1 st sid) sid =
      { closeStep1 st sid with
        realtimeSessions := alistInsert (closeStep1 st sid).realtimeSessions sid
          { { s with modelConnection := none } with state := SessionState.disconnected } } := by
    unfold closeStep2
    rw [hlook1]
  have hlook2 : alistLookup (closeStep2 (closeStep1 st sid) sid).realtimeSessions sid =
      some { { s with modelConnection := none } with state := SessionState.disconnected } := by
    rw [hstep2]
    exact alistLookup_insert_self _ _ _
  have hconn2 : (closeStep2 (closeStep1 st sid) sid).openConns = st.openConns.erase c := by
    rw [hstep2, hstep1]
  refine ⟨?_, ?_, ?_⟩
  · intro st' hmem hnone
    simp only [closeRealtimeSessionStates, hs, List.mem_cons, List.mem_singleton,
      List.not_mem_nil, or_false] at hmem
    rcases hmem with h | h | h | h
    · subst h
      rw [hs] at hnone
      exact absurd hnone (by simp)
    · subst h
      rw [hlook1] at hnone
      exact absurd hnone (by simp)
    · subst h
      rw [hlook2] at hnone
      exact absurd hnone (by simp)
    · subst h
      intro hcm
      have : c ∈ st.openConns.erase c := by
        simpa [closeStep3, hconn2] using hcm
      exact (List.Nodup.not_mem_erase hnd) this
  · unfold closeRealtimeSession
    rw [hs]
    unfold closeStep3
    exact alistLookup_remove_self _ _
  · intro sid2 now2 h
    exact cleanupRealtimeSession_preserves_presence st sid2 now2 h

/-- C5 witness: the amended theorem evaluated on `svcStateS1` and its
session `s1` holding socket `0`. -/
theorem closeRealtimeSession_witness :
    (∀ st' ∈ closeRealtimeSessionStates svcStateS1 "s1",
      alistLookup st'.realtimeSessions "s1" = none → 0 ∉ st'.openConns) ∧
    alistLookup (closeRealtimeSession svcStateS1 "s1").realtimeSessions "s1" = none ∧
    (alistLookup (cleanupRealtimeSession svcStateS1 "s1" 100000).realtimeSessions "s1").isSome = true :=
  ⟨(closeRealtimeSession_close_precedes_remove svcStateS1 "s1" sampleSession 0
      (by decide) rfl (by decide)).1,
    (closeRealtimeSession_close_precedes_remove svcStateS1 "s1" sampleSession 0
      (by decide) rfl (by decide)).2.1,
    (closeRealtimeSession_close_precedes_remove svcStateS1 "s1" sampleSession 0
      (by decide) rfl (by decide)).2.2 "s1" 100000 (by decide)⟩

/-- C9 counterexample: a config carrying no `disableVad` key but an
explicit `turn_detection: null` key yields a session with
`turn_detection = null` — the trailing `...config` spread overrides the
computed `server_vad` default, so `disableVad: true` is not the only way
to produce a null `turn_detection`. -/
theorem createRealtimeSession_spread_overrides_vad :
    cfgNullTurnDetection.disableVad ≠ some true ∧
    (createRealtimeSession emptyServiceState "s1" cfgNullTurnDetection 0).2.config.turn_detection = none := by
  decide

/-- C9 (amended): for creation configs that carry no `turn_detection` key
of their own, a config without `disableVad: true` yields
`turn_detection = { type: "server_vad" }` and `disableVad: true` yields
null; and for any session whose stored `turn_detection` is present, the
gateway's final-chunk audio path emits no manual commit or
response-create events, because its VAD-disabled test checks for an absent
`turn_detection`. -/
theorem createRealtimeSession_vad_default (st : ServiceState) (sid : String)
    (cfg : CreateConfig) (now : Nat)
    (hkey : cfg.turn_detection = none) :
    (cfg.disableVad ≠ some true →
      (createRealtimeSession st sid cfg now).2.config.turn_detection =
        some { type := "server_vad" }) ∧
    (cfg.disableVad = some true →
      (createRealtimeSession st sid cfg now).2.config.turn_detection = none) ∧
    (∀ (gst : GatewayState) (sst : ServiceState) (req : RealtimeAudioRequest)
      (now2 : Nat) (w1 w2 w3 : Bool) (s : RTSession),
      alistLookup sst.realtimeSessions req.sessionId = some s →
      s.config.turn_detection.isSome = true →
      WireEvent.inputAudioBufferCommit ∉ (handleRealtimeAudio gst sst req now2 w1 w2 w3).2.2.2 ∧
      WireEvent.responseCreate ∉ (handleRealtimeAudio gst sst req now2 w1 w2 w3).2.2.2) := by
  refine ⟨?_, ?_, ?_⟩
  · intro hdv
    simp [createRealtimeSession, hkey, hdv]
  · intro hdv
    simp [createRealtimeSession, hkey, hdv]
  · intro gst sst req now2 w1 w2 w3 s hls htd
    exact handleRealtimeAudio_no_manual gst sst req now2 w1 w2 w3
      (Or.inr (sendAudioBuffer_preserves_vad sst req.sessionId req.audio now2 w1 s hls htd))

/-- C9 witness: the default config yields server VAD, `disableVad: true`
yields null, and a final chunk on the server-VAD session `s1` produces no
manual commit. -/
theorem createRealtimeSession_vad_default_witness :
    (createRealtimeSession emptyServiceState "s1" cfgDefault 0).2.config.turn_detection =
      some { type := "server_vad" } ∧
    (createRealtimeSession emptyServiceState "s1" cfgDisableVad 0).2.config.turn_detection = none ∧
    WireEvent.inputAudioBufferCommit ∉
      (handleRealtimeAudio gwStateS1 svcStateS1 audioReqFinal 7 true true true).2.2.2 :=
  ⟨(createRealtimeSession_vad_default emptyServiceState "s1" cfgDefault 0 rfl).1
      (by decide),
    (createRealtimeSession_vad_default emptyServiceState "s1" cfgDisableVad 0 rfl).2.1 rfl,
    ((createRealtimeSession_vad_default emptyServiceState "s1" cfgDefault 0 rfl).2.2
      gwStateS1 svcStateS1 audioReqFinal 7 true true true sampleSession
      (by decide) rfl).1⟩

/-- C1: once a `connect-realtime-session` request completes — for every
socket behavior (open, error, close, silence/timeout) and whether or not
the session pre-existed — the target session's `_connectingInProgress`
flag is false; and while the flag is set on a session, the gateway's
`cleanupRealtimeSession` returns without closing that session's upstream
link or changing any state at all. -/
theorem connect_guard_cleared_and_blocks_cleanup (sst : ServiceState)
    (clientId : String) (req : ConnectRequest) (env : WsFirstEvent)
    (apiKeyValid : Bool) (now tnow : Nat) :
    (∀ s', alistLookup
        (handleConnectRealtimeSession sst clientId req env apiKeyValid now).2.1.realtimeSessions
        (resolveConnectSessionId req clientId) = some s' →
      s'.connectingInProgress = false) ∧
    (∀ sid s, alistLookup sst.realtimeSessions sid = some s →
      s.connectingInProgress = true →
      cleanupRealtimeSession sst sid tnow = sst) := by
  constructor
  · intro s' h
    simp only [handleConnectRealtimeSession] at h
    exact clearConnectingInProgress_lookup _ _ _ h
  · intro sid s hs hguard
    exact cleanupRealtimeSession_skips sst sid s tnow hs (Or.inl hguard)

/-- C1 witness: connecting `s1` (whose guard is currently stuck `true`)
leaves it with the guard cleared, and `cleanupRealtimeSession` is the
identity on the guarded state. -/
theorem connect_guard_witness :
    alistLookup (handleConnectRealtimeSession guardedState "c1" connectReqS1
        (WsFirstEvent.opened 5) true 0).2.1.realtimeSessions
      (resolveConnectSessionId connectReqS1 "c1") = some sampleSession ∧
    sampleSession.connectingInProgress = false ∧
    cleanupRealtimeSession guardedState "s1" 999999 = guardedState :=
  ⟨by decide,
    (connect_guard_cleared_and_blocks_cleanup guardedState "c1" connectReqS1
      (WsFirstEvent.opened 5) true 0 999999).1 sampleSession (by decide),
    (connect_guard_cleared_and_blocks_cleanup guardedState "c1" connectReqS1
      (WsFirstEvent.opened 5) true 0 999999).2 "s1"
      { sampleSession with connectingInProgress := true } (by decide) rfl⟩

/-- C3: the connect attempt always resolves by the 30s timeout; when the
timeout fires (the socket produced no event in time) the outcome is
failure and the force-closed socket's close handler leaves the session
disconnected with its connection handle cleared — the promise is never
left pending. -/
theorem connect_attempt_resolution_bounded (env : WsFirstEvent)
    (st : ServiceState) (sid prompt : String) (s : RTSession)
    (hT : timedOut env = true)
    (hs : alistLookup st.realtimeSessions sid = some s)
    (hnc : s.state ≠ SessionState.connected ∨ s.modelConnection = none) :
    resolveTime env ≤ connectionTimeoutMs ∧
    resolvesTrue env = false ∧
    (connectRealtimeSession st sid prompt env true).1 = false ∧
    alistLookup
      (connectRealtimeSession st sid prompt env true).2.1.realtimeSessions sid =
      some { s with state := SessionState.disconnected, modelConnection := none } := by
  have hRT : resolvesTrue env = false := timedOut_resolvesTrue_false env hT
  have hEK : errorKeepsConn env = false := timedOut_errorKeepsConn_false env hT
  have hbound : resolveTime env ≤ connectionTimeoutMs := by
    cases env <;> simp [resolveTime]
  have hncP : ¬ (s.state = SessionState.connected ∧ s.modelConnection.isSome) := by
    rcases hnc with h | h
    · exact fun hc => h hc.1
    · exact fun hc => by
        rw [h] at hc
        exact absurd hc.2 (by simp)
  refine ⟨hbound, hRT, ?_, ?_⟩
  · unfold connectRealtimeSession
    rw [hs]
    cases hmc : s.modelConnection with
    | none => simp [hncP, hmc, hRT, hEK]
    | some c0 =>
      have hstate : ¬ s.state = SessionState.connected := by
        rcases hnc with h | h
        · exact h
        · rw [h] at hmc
          exact absurd hmc (by simp)
      simp [hstate, hmc, hRT, hEK]
  · unfold connectRealtimeSession
    rw [hs]
    cases hmc : s.modelConnection with
    | none => simp [hncP, hmc, hRT, hEK, alistLookup_insert_self]
    | some c0 =>
      have hstate : ¬ s.state = SessionState.connected := by
        rcases hnc with h | h
        · exact h
        · rw [h] at hmc
          exact absurd hmc (by simp)
      simp [hstate, hmc, hRT, hEK, alistLookup_insert_self]

/-- C3 witness: a socket that never fires any event yields a failed connect
at the 30s bound, with the session left disconnected and detached. -/
theorem connect_timeout_witness :
    resolveTime WsFirstEvent.silent ≤ connectionTimeoutMs ∧
    resolvesTrue WsFirstEvent.silent = false ∧
    (connectRealtimeSession svcStateDisconnected "s1" "" WsFirstEvent.silent true).1 = false ∧
    alistLookup
      (connectRealtimeSession svcStateDisconnected "s1" "" WsFirstEvent.silent true).2.1.realtimeSessions "s1" =
      some { disconnectedSession with
        state := SessionState.disconnected
        modelConnection := none } :=
  connect_attempt_resolution_bounded WsFirstEvent.silent svcStateDisconnected
    "s1" "" disconnectedSession rfl (by decide) (Or.inl (by decide))

/-- C2 counterexample: session `s1` has its connecting guard set and, at
sweep time 400000, age 0 (so both exclusions of the claim apply), yet the
service-side idle sweep `cleanupSessions` closes it — socket closed and
session removed — because that sweep checks only `lastActivity`. -/
theorem cleanupSessions_reaps_connecting_session :
    reapVictim.connectingInProgress = true ∧
    400000 - reapVictim.createdAt < cleanupGraceMs ∧
    alistLookup (cleanupSessions reapState 400000).realtimeSessions "s1" = none ∧
    (cleanupSessions reapState 400000).openConns = [] := by decide

/-- C2 (amended): the scheduled gateway sweep (`cleanupInactiveSessions` →
`cleanupRealtimeSession`) never touches a session whose connecting guard is
set or whose age is below the 20s grace period: the session record is
returned verbatim (so it is not marked disconnected) and, when its socket
is not shared with any other session, that socket stays open. -/
theorem gateway_sweep_spares_connecting_or_young (gst : GatewayState)
    (sst : ServiceState) (now : Nat) (sid : String) (s : RTSession) (c : Nat)
    (hs : alistLookup sst.realtimeSessions sid = some s)
    (hg : s.connectingInProgress = true ∨ now - s.createdAt < cleanupGraceMs) :
    alistLookup (cleanupInactiveSessions gst sst now).2.realtimeSessions sid = some s ∧
    (s.modelConnection = some c → c ∈ sst.openConns →
      (∀ k t, k ≠ sid → alistLookup sst.realtimeSessions k = some t →
        t.modelConnection ≠ some c) →
      c ∈ (cleanupInactiveSessions gst sst now).2.openConns) := by
  have hlegacy := legacy_sweep_preserves gst.sessions now (gst, sst)
  constructor
  · simp only [cleanupInactiveSessions]
    apply realtime_sweep_preserves_entry _ now sid s hg
    rw [hlegacy.1]
    exact hs
  · intro hmc hcmem hexcl
    simp only [cleanupInactiveSessions]
    apply realtime_sweep_preserves_conn _ now sid s c hg
    · rw [hlegacy.1]
      exact hs
    · rw [hlegacy.2]
      exact hcmem
    · intro k t hk hl
      rw [hlegacy.1] at hl
      exact hexcl k t hk hl

/-- C2 witness: the gateway sweep at time 700000 targets the long-idle
`s1`, but because its guard is set the session record and its open socket
`0` both survive. -/
theorem gateway_sweep_witness :
    alistLookup
      (cleanupInactiveSessions gwStateS1 guardedState 700000).2.realtimeSessions "s1" =
      some { sampleSession with connectingInProgress := true } ∧
    0 ∈ (cleanupInactiveSessions gwStateS1 guardedState 700000).2.openConns :=
  ⟨(gateway_sweep_spares_connecting_or_young gwStateS1 guardedState 700000 "s1"
      { sampleSession with connectingInProgress := true } 0 (by decide)
      (Or.inl rfl)).1,
    (gateway_sweep_spares_connecting_or_young gwStateS1 guardedState 700000 "s1"
      { sampleSession with connectingInProgress := true } 0 (by decide)
      (Or.inl rfl)).2 rfl (by decide)
      (by
        intro k t hk ht
        simp [guardedState, svcStateS1, alistLookup, Ne.symm hk] at ht)⟩

/-- C6 counterexample: a session streaming response `resp-1` receives an
`error`-typed event from upstream; after handling it, `currentResponseId`
is still `resp-1` — the error case does not reset the response-tracking
field. -/
theorem error_event_keeps_currentResponseId :
    (alistLookup (handleRealtimeEvent streamingState "s1"
        (RealtimeEvent.errorEvent "boom") true 5).1 "s1").map
      (fun s => s.currentResponseId) = some (some "resp-1") := by decide

/-- C6 (amended): only a `response.completed` event resets
`currentResponseId` to none; an `error` event bumps `lastActivity` and is
forwarded, but leaves `currentResponseId` exactly as it was. -/
theorem handleRealtimeEvent_response_tracking
    (sessions : List (String × RTSession)) (sessionId : String) (now : Nat)
    (s : RTSession) (hs : alistLookup sessions sessionId = some s) :
    alistLookup (handleRealtimeEvent sessions sessionId
        RealtimeEvent.responseCompleted true now).1 sessionId =
      some { s with lastActivity := now, currentResponseId := none } ∧
    (∀ msg, alistLookup (handleRealtimeEvent sessions sessionId
        (RealtimeEvent.errorEvent msg) true now).1 sessionId =
      some { s with lastActivity := now }) := by
  constructor
  · simp [handleRealtimeEvent, hs, alistLookup_insert_self]
  · intro msg
    simp [handleRealtimeEvent, hs, alistLookup_insert_self]

/-- C6 witness: the amended theorem evaluated on `streamingSession`. -/
theorem handleRealtimeEvent_response_tracking_witness :
    alistLookup (handleRealtimeEvent streamingState "s1"
        RealtimeEvent.responseCompleted true 5).1 "s1" =
      some { streamingSession with lastActivity := 5, currentResponseId := none } ∧
    alistLookup (handleRealtimeEvent streamingState "s1"
        (RealtimeEvent.errorEvent "upstream failure") true 5).1 "s1" =
      some { streamingSession with lastActivity := 5 } :=
  ⟨(handleRealtimeEvent_response_tracking streamingState "s1" 5 streamingSession
      (by decide)).1,
    (handleRealtimeEvent_response_tracking streamingState "s1" 5 streamingSession
      (by decide)).2 "upstream failure"⟩

/-- C7: on an existing session, an end-session request from a socket other
than the owner yields the Unauthorized error reply and changes neither the
gateway nor the service state; the owner's request yields `{success: true}`;
an unknown session yields a success reply (idempotent close), which is a
different constructor than the Unauthorized error. -/
theorem handleRealtimeSessionEnd_ownership (gst : GatewayState)
    (sst : ServiceState) (clientId sessionId : String) (now : Nat)
    (g : GwRealtimeSession) (hne : sessionId ≠ "")
    (hg : alistLookup gst.realtimeSessions sessionId = some g) :
    (g.clientSocketId ≠ clientId →
      handleRealtimeSessionEnd gst sst clientId sessionId now =
        (EndSessionReply.err
          ("Unauthorized: Client " ++ clientId ++ " does not own session " ++ sessionId),
          gst, sst)) ∧
    (g.clientSocketId = clientId →
      (handleRealtimeSessionEnd gst sst clientId sessionId now).1 =
        EndSessionReply.ok none) ∧
    (∀ sid2, sid2 ≠ "" → alistLookup gst.realtimeSessions sid2 = none →
      handleRealtimeSessionEnd gst sst clientId sid2 now =
        (EndSessionReply.ok (some "Session was already closed or did not exist"),
          gst, sst)) ∧
    (∀ m m2, EndSessionReply.err m ≠ EndSessionReply.ok m2) := by
  refine ⟨?_, ?_, ?_, ?_⟩
  · intro hown
    simp [handleRealtimeSessionEnd, hne, hg, hown]
  · intro hown
    simp [handleRealtimeSessionEnd, hne, hg, hown]
  · intro sid2 hne2 habs
    simp [handleRealtimeSessionEnd, hne2, habs]
  · intro m m2 h
    exact EndSessionReply.noConfusion h

/-- C7 witness: on `gwStateS1` (session `s1` owned by `c1`), client `c2` is
rejected as Unauthorized with states unchanged, `c1` gets success, and a
request for the unknown `s2` gets the idempotent success reply. -/
theorem handleRealtimeSessionEnd_ownership_witness :
    handleRealtimeSessionEnd gwStateS1 svcStateS1 "c2" "s1" 100000 =
      (EndSessionReply.err
        ("Unauthorized: Client " ++ "c2" ++ " does not own session " ++ "s1"),
        gwStateS1, svcStateS1) ∧
    (handleRealtimeSessionEnd gwStateS1 svcStateS1 "c1" "s1" 100000).1 =
      EndSessionReply.ok none ∧
    handleRealtimeSessionEnd gwStateS1 svcStateS1 "c1" "s2" 100000 =
      (EndSessionReply.ok (some "Session was already closed or did not exist"),
        gwStateS1, svcStateS1) :=
  ⟨(handleRealtimeSessionEnd_ownership gwStateS1 svcStateS1 "c2" "s1" 100000
      gwSessionC1 (by decide) (by decide)).1 (by decide),
    (handleRealtimeSessionEnd_ownership gwStateS1 svcStateS1 "c1" "s1" 100000
      gwSessionC1 (by decide) (by decide)).2.1 (by decide),
    (handleRealtimeSessionEnd_ownership gwStateS1 svcStateS1 "c1" "s1" 100000
      gwSessionC1 (by decide) (by decide)).2.2.1 "s2" (by decide) (by decide)⟩

/-- C8 counterexample: with exactly two live realtime sessions and an empty
legacy set, the health-check reply reports `activeSessions = 0`, not `2` —
the field counts the legacy WebRTC session set, while the realtime session
count is reported under the separate `realtimeSessions` key. -/
theorem healthCheck_activeSessions_not_live_count :
    twoSessionState.realtimeSessions.length = 2 ∧
    (handleHealthCheck twoSessionState 0).status = "healthy" ∧
    (handleHealthCheck twoSessionState 0).activeSessions = 0 ∧
    (handleHealthCheck twoSessionState 0).realtimeSessions = 2 := by decide

/-- C8 (amended): every health-check reply has status "healthy", an
`activeSessions` field equal to the size of the legacy WebRTC session set,
and a `realtimeSessions` field equal to the number of live realtime
sessions in the registry. -/
theorem handleHealthCheck_reports_service_counters (sst : ServiceState)
    (now : Nat) :
    handleHealthCheck sst now =
      { status := "healthy"
        timestamp := now
        activeSessions := sst.activeSessions.length
        realtimeSessions := sst.realtimeSessions.length } := rfl

/-- C10: when `sendAudioBuffer` or `sendRealtimeEvent` fails because the
session is absent from the registry, or because its state is not
`connected` or it has no model connection, the call returns `false`, sends
nothing, and leaves the service state — registry, session states,
connections, timestamps — exactly unchanged. -/
theorem failed_sends_leave_state_unchanged (sst : ServiceState) (sid : String)
    (buf : List Nat) (ev : WireEvent) (now : Nat) (w : Bool) :
    (alistLookup sst.realtimeSessions sid = none →
      sendAudioBuffer sst sid buf now w = (false, sst, []) ∧
      sendRealtimeEvent sst sid ev w = (false, sst, [])) ∧
    (∀ s, alistLookup sst.realtimeSessions sid = some s →
      s.state ≠ SessionState.connected ∨ s.modelConnection = none →
      sendAudioBuffer sst sid buf now w = (false, sst, []) ∧
      sendRealtimeEvent sst sid ev w = (false, sst, [])) := by
  constructor
  · intro h
    unfold sendAudioBuffer sendRealtimeEvent
    rw [h]
    exact ⟨rfl, rfl⟩
  · intro s hs hcond
    unfold sendAudioBuffer sendRealtimeEvent
    rw [hs]
    simp [hcond]

/-- C10 witness: a missing session and a disconnected session both fail
their sends with the state returned untouched. -/
theorem failed_sends_witness :
    (sendAudioBuffer emptyServiceState "s1" [1] 0 true =
        (false, emptyServiceState, []) ∧
      sendRealtimeEvent emptyServiceState "s1" WireEvent.inputAudioBufferCommit true =
        (false, emptyServiceState, [])) ∧
    (sendAudioBuffer svcStateDisconnected "s1" [1] 0 true =
        (false, svcStateDisconnected, []) ∧
      sendRealtimeEvent svcStateDisconnected "s1" WireEvent.inputAudioBufferCommit true =
        (false, svcStateDisconnected, [])) :=
  ⟨(failed_sends_leave_state_unchanged emptyServiceState "s1" [1]
      WireEvent.inputAudioBufferCommit 0 true).1 (by decide),
    (failed_sends_leave_state_unchanged svcStateDisconnected "s1" [1]
      WireEvent.inputAudioBufferCommit 0 true).2 disconnectedSession (by decide)
      (Or.inl (by decide))⟩

end VoiceRelay
